import Mathlib

/-
Verification development for the Twilio media-stream / OpenAI realtime
audio bridge.  The repository holds three variants of the same bridge:
src/index.js (the named main file), src/unnamed/part_000 and
src/unnamed/part_001.  Per-connection mutable state and the event
handlers are embedded below as pure functions: each handler takes the
session state and returns the new state together with the list of
messages sent to the OpenAI link and to the Twilio link, in send order.
Timestamps are JS numbers carrying millisecond values; they are embedded
as Int so that the subtraction in the truncation math is exact.
-/

/-- Messages the bridge sends to the OpenAI realtime link.
truncate embeds the conversation.item.truncate event with its item_id,
content_index and audio_end_ms fields; inputAudioAppend embeds
input_audio_buffer.append; inputAudioCommit embeds
input_audio_buffer.commit; responseCreate embeds response.create. -/
inductive OpenAiMsg where
  | truncate (itemId : String) (contentIndex : Int) (audioEndMs : Int)
  | inputAudioAppend (audio : String)
  | inputAudioCommit
  | responseCreate
deriving DecidableEq, Repr

/-- Messages the bridge sends to the Twilio media-stream link.
media embeds the media event with its streamSid and base64 payload,
mark embeds the mark event, clear embeds the clear event.  The
streamSid field of the connection state is nullable in the source, so
the messages carry an Option String. -/
inductive TwilioMsg where
  | media (streamSid : Option String) (payload : String)
  | mark (streamSid : Option String) (markName : String)
  | clear (streamSid : Option String)
deriving DecidableEq, Repr

/-- Connection-specific state of one bridge session, the five mutable
variables declared at the top of the media-stream websocket handler:
streamSid, latestMediaTimestamp, lastAssistantItem, markQueue and
responseStartTimestampTwilio.  latestMediaTimestamp starts at 0;
streamSid, lastAssistantItem and responseStartTimestampTwilio start at
null, embedded as none; markQueue starts empty. -/
structure SessionState where
  streamSid : Option String
  latestMediaTimestamp : Int
  lastAssistantItem : Option String
  markQueue : List String
  responseStartTimestampTwilio : Option Int
deriving DecidableEq, Repr

/-- JS truthiness of a nullable string: null and the empty string are
falsy, every other string is truthy. -/
def jsTruthyOptStr : Option String → Bool
  | none => false
  | some v => v != ""

/-- JS falsiness of a nullable number: null and 0 are falsy.  This is
the test written as a bang on responseStartTimestampTwilio in the
first-delta branch of the OpenAI message handler. -/
def jsFalsyOptInt : Option Int → Bool
  | none => true
  | some v => v == 0

/-- sendMark from src/index.js (identical in the other variants): when
streamSid is truthy, send a mark event named responsePart to the Twilio
link and push the token responsePart onto markQueue; otherwise do
nothing. -/
def sendMark (s : SessionState) : SessionState × List TwilioMsg :=
  if jsTruthyOptStr s.streamSid then
    ({ s with markQueue := s.markQueue ++ ["responsePart"] },
     [TwilioMsg.mark s.streamSid "responsePart"])
  else
    (s, [])

/-- handleSpeechStartedEvent from src/index.js.  Guard: markQueue has
positive length and responseStartTimestampTwilio is not null.  Inside
the guard: elapsedTime is latestMediaTimestamp minus
responseStartTimestampTwilio; when lastAssistantItem is truthy a
conversation.item.truncate event with audio_end_ms equal to elapsedTime
(not clamped in this variant) goes to the OpenAI link; a clear event
goes to the Twilio link; then markQueue is emptied and
lastAssistantItem and responseStartTimestampTwilio are set to null. -/
def handleSpeechStartedEvent (s : SessionState) :
    SessionState × List OpenAiMsg × List TwilioMsg :=
  match s.responseStartTimestampTwilio with
  | none => (s, [], [])
  | some startTs =>
    if 0 < s.markQueue.length then
      let elapsedTime := s.latestMediaTimestamp - startTs
      let aiMsgs :=
        match s.lastAssistantItem with
        | some itemId =>
          if itemId != "" then [OpenAiMsg.truncate itemId 0 elapsedTime] else []
        | none => []
      ({ s with markQueue := [], lastAssistantItem := none,
                responseStartTimestampTwilio := none },
       aiMsgs,
       [TwilioMsg.clear s.streamSid])
    else
      (s, [], [])

/-- handleSpeechStartedEvent from src/unnamed/part_001 (and the
equivalent handler in src/unnamed/part_000): identical to the
src/index.js version except that audio_end_ms is Math.max of 0 and the
elapsed time. -/
def handleSpeechStartedEventP1 (s : SessionState) :
    SessionState × List OpenAiMsg × List TwilioMsg :=
  match s.responseStartTimestampTwilio with
  | none => (s, [], [])
  | some startTs =>
    if 0 < s.markQueue.length then
      let elapsedTime := s.latestMediaTimestamp - startTs
      let aiMsgs :=
        match s.lastAssistantItem with
        | some itemId =>
          if itemId != "" then [OpenAiMsg.truncate itemId 0 (max 0 elapsedTime)] else []
        | none => []
      ({ s with markQueue := [], lastAssistantItem := none,
                responseStartTimestampTwilio := none },
       aiMsgs,
       [TwilioMsg.clear s.streamSid])
    else
      (s, [], [])

/-- handleSpeechStoppedEvent from src/unnamed/part_001: send
input_audio_buffer.commit, then response.create, to the OpenAI link.
It reads or writes no session state. -/
def handleSpeechStoppedEvent : List OpenAiMsg :=
  [OpenAiMsg.inputAudioCommit, OpenAiMsg.responseCreate]

/-- Inbound events from the OpenAI link, after JSON parsing, as the
message handlers dispatch on the type field.  outputAudioDelta carries
the nullable delta payload and the nullable item_id; other covers every
type string the handlers do not act on. -/
inductive OpenAiInbound where
  | outputAudioDelta (delta : Option String) (itemId : Option String)
  | speechStarted
  | speechStopped
  | responseDone
  | other (eventType : String)
deriving DecidableEq, Repr

/-- The OpenAI message handler of src/index.js.  On a
response.output_audio.delta event with truthy delta: send a media event
carrying streamSid and the delta payload to the Twilio link; if
responseStartTimestampTwilio is falsy (null or 0, a bang test in the
source) set it to latestMediaTimestamp; if item_id is truthy set
lastAssistantItem to it; then run sendMark.  On
input_audio_buffer.speech_started run handleSpeechStartedEvent.  Every
other event type (including response.done and
input_audio_buffer.speech_stopped) only logs and changes nothing. -/
def processOpenAiMessage (s : SessionState) (msg : OpenAiInbound) :
    SessionState × List OpenAiMsg × List TwilioMsg :=
  match msg with
  | OpenAiInbound.outputAudioDelta delta itemId =>
    if jsTruthyOptStr delta then
      let mediaMsg := TwilioMsg.media s.streamSid (delta.getD "")
      let s1 :=
        if jsFalsyOptInt s.responseStartTimestampTwilio then
          { s with responseStartTimestampTwilio := some s.latestMediaTimestamp }
        else s
      let s2 := if jsTruthyOptStr itemId then { s1 with lastAssistantItem := itemId } else s1
      let s3out := sendMark s2
      (s3out.1, [], mediaMsg :: s3out.2)
    else
      (s, [], [])
  | OpenAiInbound.speechStarted => handleSpeechStartedEvent s
  | _ => (s, [], [])

/-- The OpenAI message handler of src/unnamed/part_001.  The delta
branch updates responseStartTimestampTwilio (same falsy bang test) and
lastAssistantItem before sending the media event and running sendMark.
input_audio_buffer.speech_started runs its handleSpeechStartedEvent
variant; input_audio_buffer.speech_stopped runs
handleSpeechStoppedEvent; response.done empties markQueue and sets
lastAssistantItem and responseStartTimestampTwilio to null without
sending anything. -/
def processOpenAiMessageP1 (s : SessionState) (msg : OpenAiInbound) :
    SessionState × List OpenAiMsg × List TwilioMsg :=
  match msg with
  | OpenAiInbound.outputAudioDelta delta itemId =>
    if jsTruthyOptStr delta then
      let s1 :=
        if jsFalsyOptInt s.responseStartTimestampTwilio then
          { s with responseStartTimestampTwilio := some s.latestMediaTimestamp }
        else s
      let s2 := if jsTruthyOptStr itemId then { s1 with lastAssistantItem := itemId } else s1
      let mediaMsg := TwilioMsg.media s2.streamSid (delta.getD "")
      let s3out := sendMark s2
      (s3out.1, [], mediaMsg :: s3out.2)
    else
      (s, [], [])
  | OpenAiInbound.speechStarted => handleSpeechStartedEventP1 s
  | OpenAiInbound.speechStopped => (s, handleSpeechStoppedEvent, [])
  | OpenAiInbound.responseDone =>
    ({ s with markQueue := [], lastAssistantItem := none,
              responseStartTimestampTwilio := none }, [], [])
  | _ => (s, [], [])

/-- Inbound events from the Twilio link, after JSON parsing, as the
connection message handler dispatches on the event field. -/
inductive TwilioInbound where
  | media (timestamp : Int) (payload : String)
  | start (streamSid : String)
  | mark
  | stop
  | other (eventName : String)
deriving DecidableEq, Repr

/-- The Twilio connection message handler of src/index.js.  The
openAiOpen argument embeds the readyState test of the OpenAI websocket
against OPEN.  media: set latestMediaTimestamp to the reported
timestamp unconditionally, and forward the payload as
input_audio_buffer.append only when the OpenAI link is open.  start:
set streamSid from the event, set responseStartTimestampTwilio to null
and latestMediaTimestamp to 0 (markQueue and lastAssistantItem are not
touched in the source).  mark: pop the oldest markQueue entry when the
queue is nonempty.  stop and every other event only log. -/
def processTwilioEvent (openAiOpen : Bool) (s : SessionState) (e : TwilioInbound) :
    SessionState × List OpenAiMsg :=
  match e with
  | TwilioInbound.media timestamp payload =>
    let s1 := { s with latestMediaTimestamp := timestamp }
    if openAiOpen then (s1, [OpenAiMsg.inputAudioAppend payload]) else (s1, [])
  | TwilioInbound.start sid =>
    ({ s with streamSid := some sid, responseStartTimestampTwilio := none,
              latestMediaTimestamp := 0 }, [])
  | TwilioInbound.mark =>
    if 0 < s.markQueue.length then ({ s with markQueue := s.markQueue.tail }, []) else (s, [])
  | _ => (s, [])

/-- One inbound telephony media frame together with the openness of the
OpenAI link at the moment the frame is processed. -/
structure MediaFrame where
  aiOpen : Bool
  timestamp : Int
  payload : String
deriving DecidableEq, Repr

/-- Process a sequence of inbound media frames through the src/index.js
Twilio handler, accumulating the messages forwarded to the OpenAI
link. -/
def processFrames (s : SessionState) : List MediaFrame → SessionState × List OpenAiMsg
  | [] => (s, [])
  | f :: rest =>
    let step := processTwilioEvent f.aiOpen s (TwilioInbound.media f.timestamp f.payload)
    let restOut := processFrames step.1 rest
    (restOut.1, step.2 ++ restOut.2)

/-- Websocket readyState values of the ws library. -/
inductive WsReadyState where
  | connecting
  | opened
  | closing
  | closed
deriving DecidableEq, Repr

/-- The close handler of the Twilio connection in src/index.js: when
the OpenAI websocket readyState is OPEN, close it (embedded as reaching
the closed state); otherwise leave it as it is.  The function returns
the resulting state of the OpenAI link. -/
def connectionOnClose (openAiState : WsReadyState) : WsReadyState :=
  if openAiState = WsReadyState.opened then WsReadyState.closed else openAiState

/-- The close handler of the OpenAI websocket in src/index.js: it only
logs a message.  The function returns the resulting openness of the
Twilio link, which the handler never touches. -/
def openAiOnClose (twilioLinkOpen : Bool) : Bool := twilioLinkOpen

/-- The error handler of the OpenAI websocket in src/index.js: it only
logs the error.  The function returns the resulting openness of the
Twilio link, which the handler never touches. -/
def openAiOnError (twilioLinkOpen : Bool) : Bool := twilioLinkOpen

/-- The turn_detection object sent in the session.update of
src/index.js. -/
structure TurnDetection where
  tdType : String
  silenceDurationMs : Option Int
deriving DecidableEq, Repr

/-- turn_detection as configured by the session setup of src/index.js:
type server_vad, no further fields. -/
def turnDetectionIndex : TurnDetection :=
  { tdType := "server_vad", silenceDurationMs := none }

/-- turn_detection as configured by the session setup of
src/unnamed/part_001: type server_vad with silence_duration_ms 350
(the threshold field, a float, is not claim-relevant and is omitted
from the embedding). -/
def turnDetectionP1 : TurnDetection :=
  { tdType := "server_vad", silenceDurationMs := some 350 }

/-- Helper: the state produced by the src/index.js media branch does
not depend on the openness of the OpenAI link. -/
theorem processTwilioEvent_media_fst (b : Bool) (s : SessionState) (ts : Int) (p : String) :
    (processTwilioEvent b s (TwilioInbound.media ts p)).1 =
      { s with latestMediaTimestamp := ts } := by
  cases b <;> rfl

/-- Helper: with a recorded playback start, pending marks, and a
nonempty last assistant item, handleSpeechStartedEvent of src/index.js
sends one truncate with the exact elapsed difference, one clear, and
resets the playback state. -/
theorem handleSpeechStartedEvent_speaking (s : SessionState) (v : Int) (itemId : String)
    (hq : s.markQueue ≠ [])
    (hst : s.responseStartTimestampTwilio = some v)
    (hit : s.lastAssistantItem = some itemId)
    (hne : itemId ≠ "") :
    handleSpeechStartedEvent s =
      ({ s with markQueue := [], lastAssistantItem := none,
                responseStartTimestampTwilio := none },
       [OpenAiMsg.truncate itemId 0 (s.latestMediaTimestamp - v)],
       [TwilioMsg.clear s.streamSid]) := by
  have hlen : 0 < s.markQueue.length := List.length_pos.mpr hq
  unfold handleSpeechStartedEvent
  rw [hst, hit]
  simp [hlen, hne]

/-- C1: when the speech_started signal arrives while an AI response is
being forwarded (pending marks, recorded playback start, captured
assistant item id), the src/index.js session sends one truncate to the
OpenAI link carrying the active item id and the elapsed time
latestMediaTimestamp minus responseStartTimestampTwilio, sends one
clear to the Twilio link, clears the playback record and empties the
mark queue. -/
theorem c1_barge_in_truncate_and_flush (s : SessionState) (v : Int) (itemId : String)
    (hq : s.markQueue ≠ [])
    (hst : s.responseStartTimestampTwilio = some v)
    (hit : s.lastAssistantItem = some itemId)
    (hne : itemId ≠ "") :
    processOpenAiMessage s OpenAiInbound.speechStarted =
      ({ s with markQueue := [], lastAssistantItem := none,
                responseStartTimestampTwilio := none },
       [OpenAiMsg.truncate itemId 0 (s.latestMediaTimestamp - v)],
       [TwilioMsg.clear s.streamSid]) := by
  have h := handleSpeechStartedEvent_speaking s v itemId hq hst hit hne
  simpa [processOpenAiMessage] using h

/-- C1 witness: with playback started at call clock 1000 and the call
clock now at 1350, a barge-in truncates at elapsed 350 ms. -/
theorem c1_witness :
    processOpenAiMessage
        { streamSid := some "MZ1", latestMediaTimestamp := 1350,
          lastAssistantItem := some "item1", markQueue := ["responsePart"],
          responseStartTimestampTwilio := some 1000 }
        OpenAiInbound.speechStarted =
      ({ streamSid := some "MZ1", latestMediaTimestamp := 1350,
         lastAssistantItem := none, markQueue := [],
         responseStartTimestampTwilio := none },
       [OpenAiMsg.truncate "item1" 0 350],
       [TwilioMsg.clear (some "MZ1")]) := by
  have h := c1_barge_in_truncate_and_flush
      { streamSid := some "MZ1", latestMediaTimestamp := 1350,
        lastAssistantItem := some "item1", markQueue := ["responsePart"],
        responseStartTimestampTwilio := some 1000 }
      1000 "item1" (by simp) rfl rfl (by simp)
  simpa using h

/-- C2 counterexample: a telephony start event does not clear the
pending acknowledgment markers nor the remembered assistant item id.
With markQueue holding one token and lastAssistantItem set, both
survive the start event unchanged. -/
theorem c2_counterexample :
    (processTwilioEvent true
        { streamSid := some "MZold", latestMediaTimestamp := 700,
          lastAssistantItem := some "itemA", markQueue := ["responsePart"],
          responseStartTimestampTwilio := some 500 }
        (TwilioInbound.start "MZnew")).1.markQueue = ["responsePart"] ∧
    (processTwilioEvent true
        { streamSid := some "MZold", latestMediaTimestamp := 700,
          lastAssistantItem := some "itemA", markQueue := ["responsePart"],
          responseStartTimestampTwilio := some 500 }
        (TwilioInbound.start "MZnew")).1.lastAssistantItem = some "itemA" :=
  ⟨rfl, rfl⟩

/-- C2 amended: a telephony start event captures the new stream id,
resets latestMediaTimestamp to 0 and clears the playback start record,
but leaves the remembered assistant item id and the pending
acknowledgment markers untouched, and sends nothing. -/
theorem c2_start_resets_clock_and_playback_start (openAiOpen : Bool) (s : SessionState)
    (sid : String) :
    processTwilioEvent openAiOpen s (TwilioInbound.start sid) =
      ({ s with streamSid := some sid, latestMediaTimestamp := 0,
                responseStartTimestampTwilio := none }, []) ∧
    (processTwilioEvent openAiOpen s (TwilioInbound.start sid)).1.markQueue = s.markQueue ∧
    (processTwilioEvent openAiOpen s (TwilioInbound.start sid)).1.lastAssistantItem =
      s.lastAssistantItem :=
  ⟨rfl, rfl, rfl⟩

/-- C3 counterexample: in src/index.js the truncate offset is not
floored at 0.  With the latest frame timestamp 500 smaller than the
recorded playback start 1000, the truncate event carries the negative
offset minus 500. -/
theorem c3_counterexample :
    (handleSpeechStartedEvent
        { streamSid := some "MZ1", latestMediaTimestamp := 500,
          lastAssistantItem := some "itemA", markQueue := ["responsePart"],
          responseStartTimestampTwilio := some 1000 }).2.1 =
      [OpenAiMsg.truncate "itemA" 0 (-500)] ∧ (-500 : Int) < 0 := by
  constructor
  · rfl
  · decide

/-- C3 amended: the part_000 and part_001 variants floor the truncate
offset at 0, so the offset they send equals the maximum of 0 and
latestMediaTimestamp minus responseStartTimestampTwilio and is never
negative; the src/index.js variant sends the raw difference, which is
negative whenever the latest frame timestamp is smaller than the
recorded playback start. -/
theorem c3_amended_offset_floored (s : SessionState) (v : Int) (itemId : String)
    (hq : s.markQueue ≠ [])
    (hst : s.responseStartTimestampTwilio = some v)
    (hit : s.lastAssistantItem = some itemId)
    (hne : itemId ≠ "") :
    (handleSpeechStartedEventP1 s).2.1 =
      [OpenAiMsg.truncate itemId 0 (max 0 (s.latestMediaTimestamp - v))] ∧
    0 ≤ max 0 (s.latestMediaTimestamp - v) := by
  have hlen : 0 < s.markQueue.length := List.length_pos.mpr hq
  constructor
  · unfold handleSpeechStartedEventP1
    rw [hst, hit]
    simp [hlen, hne]
  · exact le_max_left 0 _

/-- C3 amended witness: with the latest frame timestamp 500 and the
recorded start 1000, the part_001 handler sends offset 0, not a
negative value. -/
theorem c3_witness :
    (handleSpeechStartedEventP1
        { streamSid := some "MZ1", latestMediaTimestamp := 500,
          lastAssistantItem := some "itemA", markQueue := ["responsePart"],
          responseStartTimestampTwilio := some 1000 }).2.1 =
      [OpenAiMsg.truncate "itemA" 0 0] := by
  have h := c3_amended_offset_floored
      { streamSid := some "MZ1", latestMediaTimestamp := 500,
        lastAssistantItem := some "itemA", markQueue := ["responsePart"],
        responseStartTimestampTwilio := some 1000 }
      1000 "itemA" (by simp) rfl rfl (by simp)
  simpa using h.1

/-- C4 counterexample: in src/index.js a response.done event while
playback is active changes nothing: the playback start record and the
mark queue survive, so the claim that it clears them fails on this
variant. -/
theorem c4_counterexample :
    processOpenAiMessage
        { streamSid := some "MZ1", latestMediaTimestamp := 900,
          lastAssistantItem := some "itemB", markQueue := ["responsePart"],
          responseStartTimestampTwilio := some 100 }
        OpenAiInbound.responseDone =
      ({ streamSid := some "MZ1", latestMediaTimestamp := 900,
         lastAssistantItem := some "itemB", markQueue := ["responsePart"],
         responseStartTimestampTwilio := some 100 }, [], []) ∧
    (some (100 : Int) ≠ (none : Option Int)) := by
  exact ⟨rfl, by simp⟩

/-- C4 amended: only the part_001 variant reacts to response.done,
clearing the playback record and emptying the mark queue while sending
nothing to either link; the src/index.js handler leaves the state
unchanged and also sends nothing. -/
theorem c4_amended_response_done (s : SessionState) :
    processOpenAiMessageP1 s OpenAiInbound.responseDone =
      ({ s with markQueue := [], lastAssistantItem := none,
                responseStartTimestampTwilio := none }, [], []) ∧
    processOpenAiMessage s OpenAiInbound.responseDone = (s, [], []) :=
  ⟨rfl, rfl⟩

/-- C5 counterexample: the close and error handlers of the OpenAI
websocket in src/index.js only log; with the Twilio link open, it stays
open after either handler runs, so an AI-link close or error does not
close the telephony link. -/
theorem c5_counterexample :
    openAiOnClose true = true ∧ openAiOnError true = true :=
  ⟨rfl, rfl⟩

/-- C5 amended: the Twilio-close handler closes the OpenAI link when it
is open and is idempotent, but the OpenAI close and error handlers
never touch the Twilio link, so an AI-side close or error leaves the
telephony side as it was. -/
theorem c5_amended_teardown :
    (∀ a : WsReadyState, connectionOnClose (connectionOnClose a) = connectionOnClose a) ∧
    connectionOnClose WsReadyState.opened = WsReadyState.closed ∧
    (∀ b : Bool, openAiOnClose b = b) ∧
    (∀ b : Bool, openAiOnError b = b) := by
  refine ⟨?_, rfl, fun _ => rfl, fun _ => rfl⟩
  intro a
  cases a <;> rfl

/-- C6 counterexample: the first-delta test in the source is a JS
truthiness bang, so a recorded playback start of 0 counts as absent:
with responseStartTimestampTwilio already some 0 and the call clock at
400, a further audio delta resets the start marker to some 400. -/
theorem c6_counterexample :
    (processOpenAiMessage
        { streamSid := some "MZ1", latestMediaTimestamp := 400,
          lastAssistantItem := some "item2", markQueue := ["responsePart"],
          responseStartTimestampTwilio := some 0 }
        (OpenAiInbound.outputAudioDelta (some "QUJD") (some "item2"))).1.responseStartTimestampTwilio =
      some 400 ∧
    (some (400 : Int) ≠ some (0 : Int)) := by
  exact ⟨rfl, by simp⟩

/-- C6 amended: an audio delta sets responseStartTimestampTwilio to the
current latestMediaTimestamp exactly when the recorded value is falsy
in the JS sense, that is absent or 0; when the recorded value is
nonzero the marker is left unchanged, but a recorded value of 0 is
reset by every further chunk. -/
theorem c6_amended_start_marker (s : SessionState) (d : String) (itemId : Option String)
    (hd : d ≠ "") :
    (processOpenAiMessage s
        (OpenAiInbound.outputAudioDelta (some d) itemId)).1.responseStartTimestampTwilio =
      (if jsFalsyOptInt s.responseStartTimestampTwilio then some s.latestMediaTimestamp
       else s.responseStartTimestampTwilio) := by
  have hden : jsTruthyOptStr (some d) = true := by simp [jsTruthyOptStr, hd]
  unfold processOpenAiMessage sendMark
  simp only [hden, if_true]
  split <;> split <;> split <;> simp_all

/-- C6 witness: with a nonzero recorded start of 1000, a further audio
delta leaves the start marker unchanged. -/
theorem c6_witness :
    (processOpenAiMessage
        { streamSid := some "MZ1", latestMediaTimestamp := 400,
          lastAssistantItem := none, markQueue := [],
          responseStartTimestampTwilio := some 1000 }
        (OpenAiInbound.outputAudioDelta (some "QUJD") (some "item7"))).1.responseStartTimestampTwilio =
      some 1000 := by
  have h := c6_amended_start_marker
      { streamSid := some "MZ1", latestMediaTimestamp := 400,
        lastAssistantItem := none, markQueue := [],
        responseStartTimestampTwilio := some 1000 }
      "QUJD" (some "item7") (by simp)
  simpa [jsFalsyOptInt] using h

/-- C7: a speech_started signal with no recorded playback start is a
complete no-op in src/index.js: no truncate, no clear, and the session
state is returned unchanged. -/
theorem c7_speech_started_idle_noop (s : SessionState)
    (h : s.responseStartTimestampTwilio = none) :
    processOpenAiMessage s OpenAiInbound.speechStarted = (s, [], []) := by
  simp [processOpenAiMessage, handleSpeechStartedEvent, h]

/-- C7 witness: even with pending marks, a speech_started signal while
the playback start record is absent changes nothing and sends
nothing. -/
theorem c7_witness :
    processOpenAiMessage
        { streamSid := some "MZ77", latestMediaTimestamp := 250,
          lastAssistantItem := none, markQueue := ["responsePart"],
          responseStartTimestampTwilio := none }
        OpenAiInbound.speechStarted =
      ({ streamSid := some "MZ77", latestMediaTimestamp := 250,
         lastAssistantItem := none, markQueue := ["responsePart"],
         responseStartTimestampTwilio := none }, [], []) :=
  c7_speech_started_idle_noop _ rfl

/-- C8 counterexample: the part_001 session is configured with
server-side turn detection (server_vad), yet its speech_stopped handler
still sends a commit followed by a response request; the claim that
under the AUTO policy the signal triggers neither instruction fails on
the code, which has no turn-policy conditional at all. -/
theorem c8_counterexample :
    turnDetectionP1.tdType = "server_vad" ∧
    processOpenAiMessageP1
        { streamSid := some "MZ1", latestMediaTimestamp := 0,
          lastAssistantItem := none, markQueue := [],
          responseStartTimestampTwilio := none }
        OpenAiInbound.speechStopped =
      ({ streamSid := some "MZ1", latestMediaTimestamp := 0,
         lastAssistantItem := none, markQueue := [],
         responseStartTimestampTwilio := none },
       [OpenAiMsg.inputAudioCommit, OpenAiMsg.responseCreate], []) :=
  ⟨rfl, rfl⟩

/-- C8 amended: the code has no turn-policy switch.  In part_001 the
speech_stopped signal always triggers exactly one commit followed by
exactly one response request, in that order, although the session is
configured with server_vad; in src/index.js the signal triggers
neither instruction and changes nothing. -/
theorem c8_amended_speech_stopped (s : SessionState) :
    processOpenAiMessageP1 s OpenAiInbound.speechStopped =
      (s, [OpenAiMsg.inputAudioCommit, OpenAiMsg.responseCreate], []) ∧
    handleSpeechStoppedEvent = [OpenAiMsg.inputAudioCommit, OpenAiMsg.responseCreate] ∧
    processOpenAiMessage s OpenAiInbound.speechStopped = (s, [], []) ∧
    turnDetectionP1.tdType = "server_vad" ∧
    turnDetectionIndex.tdType = "server_vad" :=
  ⟨rfl, rfl, rfl, rfl, rfl⟩

/-- Helper: over any nonempty sequence of inbound media frames, the
final latestMediaTimestamp is the timestamp of the last frame,
whatever the intermediate timestamps and link states were. -/
theorem processFrames_clock (s : SessionState) (f : MediaFrame) (rest : List MediaFrame) :
    (processFrames s (f :: rest)).1.latestMediaTimestamp =
      ((f :: rest).getLast (List.cons_ne_nil f rest)).timestamp := by
  induction rest generalizing s f with
  | nil =>
    simp [processFrames, processTwilioEvent_media_fst, List.getLast]
  | cons g rest2 ih =>
    have h1 : (processFrames s (f :: g :: rest2)).1 =
        (processFrames (processTwilioEvent f.aiOpen s
          (TwilioInbound.media f.timestamp f.payload)).1 (g :: rest2)).1 := rfl
    rw [h1, ih, List.getLast_cons (List.cons_ne_nil g rest2)]

/-- C9: after any nonempty sequence of inbound media frames the clock
latestMediaTimestamp equals the last frame timestamp regardless of
intermediate values, and a media frame arriving while the OpenAI link
is not open only updates the clock: no message is forwarded and no
other field changes. -/
theorem c9_clock_follows_last_frame (s : SessionState) (frames : List MediaFrame)
    (h : frames ≠ []) :
    (processFrames s frames).1.latestMediaTimestamp = (frames.getLast h).timestamp ∧
    (∀ ts p, processTwilioEvent false s (TwilioInbound.media ts p) =
        ({ s with latestMediaTimestamp := ts }, [])) := by
  refine ⟨?_, fun ts p => rfl⟩
  cases frames with
  | nil => exact absurd rfl h
  | cons f rest => exact processFrames_clock s f rest

/-- C9 witness: two frames whose timestamps move backward from 100 to
50 leave the clock at 50, and a frame processed with the OpenAI link
not open updates only the clock and forwards nothing. -/
theorem c9_witness :
    (processFrames
        { streamSid := none, latestMediaTimestamp := 0, lastAssistantItem := none,
          markQueue := [], responseStartTimestampTwilio := none }
        [{ aiOpen := true, timestamp := 100, payload := "AAAA" },
         { aiOpen := false, timestamp := 50, payload := "BBBB" }]).1.latestMediaTimestamp = 50 ∧
    processTwilioEvent false
        { streamSid := none, latestMediaTimestamp := 0, lastAssistantItem := none,
          markQueue := [], responseStartTimestampTwilio := none }
        (TwilioInbound.media 42 "CCCC") =
      ({ streamSid := none, latestMediaTimestamp := 42, lastAssistantItem := none,
         markQueue := [], responseStartTimestampTwilio := none }, []) := by
  have h := c9_clock_follows_last_frame
      { streamSid := none, latestMediaTimestamp := 0, lastAssistantItem := none,
        markQueue := [], responseStartTimestampTwilio := none }
      [{ aiOpen := true, timestamp := 100, payload := "AAAA" },
       { aiOpen := false, timestamp := 50, payload := "BBBB" }]
      (by simp)
  exact ⟨h.1, h.2 42 "CCCC"⟩

/-- C10: a barge-in with pending marks and a recorded playback start
but no captured assistant item id still sends the clear instruction to
the Twilio link and resets the playback state, while sending no
truncate to the OpenAI link. -/
theorem c10_no_item_flush_only (s : SessionState) (v : Int)
    (hq : s.markQueue ≠ [])
    (hst : s.responseStartTimestampTwilio = some v)
    (hit : s.lastAssistantItem = none) :
    processOpenAiMessage s OpenAiInbound.speechStarted =
      ({ s with markQueue := [], lastAssistantItem := none,
                responseStartTimestampTwilio := none },
       [], [TwilioMsg.clear s.streamSid]) := by
  have hlen : 0 < s.markQueue.length := List.length_pos.mpr hq
  show handleSpeechStartedEvent s = _
  unfold handleSpeechStartedEvent
  rw [hst, hit]
  simp [hlen]

/-- C10 witness: two pending marks, playback start 300, no assistant
item id: the barge-in clears the Twilio buffer and resets the state
without any truncate. -/
theorem c10_witness :
    processOpenAiMessage
        { streamSid := some "MZ9", latestMediaTimestamp := 800,
          lastAssistantItem := none, markQueue := ["responsePart", "responsePart"],
          responseStartTimestampTwilio := some 300 }
        OpenAiInbound.speechStarted =
      ({ streamSid := some "MZ9", latestMediaTimestamp := 800,
         lastAssistantItem := none, markQueue := [],
         responseStartTimestampTwilio := none },
       [], [TwilioMsg.clear (some "MZ9")]) := by
  have h := c10_no_item_flush_only
      { streamSid := some "MZ9", latestMediaTimestamp := 800,
        lastAssistantItem := none, markQueue := ["responsePart", "responsePart"],
        responseStartTimestampTwilio := some 300 }
      300 (by simp) rfl rfl
  simpa using h
